import Mathlib

/-!
Verification development for the city-detail aggregation core of the
terradart-api repository (src/city_detail/services.py).

Modelling conventions, used throughout:
* Python JSON-like values (None / bool / numbers / str / list / dict) are
  embedded as the inductive type PyVal.  Python int and float are both
  embedded as rationals (PyVal.num); Python bool is kept separate
  (PyVal.bool) because services.py occasionally distinguishes it.
* Python dicts are association lists with unique keys (Python dicts never
  hold a duplicate key); dict.get misses yield PyVal.none, matching
  Python's None.
* External collaborators (the geopy geolocator, the HTTP client, bleach,
  datetime.fromisoformat, random.choice, the Django cache) are pure
  oracle parameters of the embedded functions; the embedding captures
  exactly the control flow of services.py around those calls.
* Python strings are Lean Strings except in the cache-key normalization
  code, where percent-encoding operates on Unicode code points and UTF-8
  bytes, so strings are embedded as lists of code points (List Nat).
-/

/-- Embedded Python/JSON value. -/
inductive PyVal where
  | none : PyVal
  | bool : Bool → PyVal
  | num : Rat → PyVal
  | str : String → PyVal
  | list : List PyVal → PyVal
  | dict : List (String × PyVal) → PyVal

/-- Python `d.get(k)`: the value at `k`, or None when absent or when the
receiver is not a dict (services.py only calls .get on dict-shaped data). -/
def PyVal.get (v : PyVal) (key : String) : PyVal :=
  match v with
  | PyVal.dict entries =>
    match entries.find? (fun kv => kv.1 = key) with
    | Option.some kv => kv.2
    | Option.none => PyVal.none
  | _ => PyVal.none

/-- Python `d.get(k, default)`. -/
def PyVal.getD (v : PyVal) (key : String) (default : PyVal) : PyVal :=
  match v with
  | PyVal.dict entries =>
    match entries.find? (fun kv => kv.1 = key) with
    | Option.some kv => kv.2
    | Option.none => default
  | _ => default

/-- Python truthiness of an embedded value. -/
def PyVal.truthy (v : PyVal) : Bool :=
  match v with
  | PyVal.none => false
  | PyVal.bool b => b
  | PyVal.num q => decide (q ≠ 0)
  | PyVal.str s => decide (s ≠ "")
  | PyVal.list l => !l.isEmpty
  | PyVal.dict d => !d.isEmpty

/-- Python `x is None`. -/
def PyVal.isNone (v : PyVal) : Bool :=
  match v with
  | PyVal.none => true
  | _ => false

/-- Python `a or b`. -/
def pyOr (a b : PyVal) : PyVal :=
  if a.truthy then a else b

/-- Python dict assignment `d[k] = v`: replace the value when the key is
present, append the pair otherwise (insertion order preserved). -/
def dictSet (entries : List (String × PyVal)) (key : String) (v : PyVal) :
    List (String × PyVal) :=
  match entries with
  | [] => [(key, v)]
  | kv :: rest =>
    if kv.1 = key then (key, v) :: rest else kv :: dictSet rest key v

/-- Python truthiness of an optional string (`None` and `""` are falsy). -/
def strTruthy (o : Option String) : Bool :=
  match o with
  | Option.none => false
  | Option.some s => decide (s ≠ "")

/-- An optional Python string as a PyVal. -/
def optStr (o : Option String) : PyVal :=
  match o with
  | Option.none => PyVal.none
  | Option.some s => PyVal.str s

/-!
## Cache-key normalization (services.py, _normalize_cache_part)

Strings are lists of Unicode code points.  `str.strip()` / `str.lower()`
are embedded for the ASCII range (ASCII whitespace, ASCII case mapping;
non-ASCII code points are left unchanged — the properties below only turn
on the ASCII-safe alphabet of quote_plus).  `urllib.parse.quote_plus` is
embedded in full: UTF-8 encode, keep the always-safe bytes
(alphanumerics and `_.-~`), map space to `+`, percent-encode every other
byte with uppercase hex digits.
-/

/-- ASCII whitespace, the characters removed by str.strip(). -/
def isAsciiSpace (c : Nat) : Bool :=
  c = 32 || c = 9 || c = 10 || c = 11 || c = 12 || c = 13

/-- str.strip(): drop leading and trailing whitespace. -/
def pyStrip (s : List Nat) : List Nat :=
  ((s.dropWhile isAsciiSpace).reverse.dropWhile isAsciiSpace).reverse

/-- str.lower() on one code point (ASCII case mapping). -/
def lowerChar (c : Nat) : Nat :=
  if 65 ≤ c ∧ c ≤ 90 then c + 32 else c

/-- str.lower(). -/
def pyLower (s : List Nat) : List Nat :=
  s.map lowerChar

/-- UTF-8 encoding of one code point. -/
def utf8Encode (c : Nat) : List Nat :=
  if c < 128 then [c]
  else if c < 2048 then [192 + c / 64, 128 + c % 64]
  else if c < 65536 then [224 + c / 4096, 128 + (c / 64) % 64, 128 + c % 64]
  else [240 + c / 262144, 128 + (c / 4096) % 64, 128 + (c / 64) % 64, 128 + c % 64]

/-- The bytes urllib.parse.quote never encodes (letters, digits, _.-~). -/
def isSafeByte (b : Nat) : Bool :=
  (48 ≤ b && b ≤ 57) || (65 ≤ b && b ≤ 90) || (97 ≤ b && b ≤ 122) ||
    b = 95 || b = 46 || b = 45 || b = 126

/-- Uppercase hexadecimal digit for a value below 16. -/
def hexDigit (n : Nat) : Nat :=
  if n < 10 then 48 + n else 55 + n

/-- quote_plus on one UTF-8 byte: safe bytes pass, space becomes `+`,
everything else becomes a percent escape. -/
def quoteByte (b : Nat) : List Nat :=
  if isSafeByte b then [b]
  else if b = 32 then [43]
  else [37, hexDigit (b / 16), hexDigit (b % 16)]

/-- urllib.parse.quote_plus with its default safe set. -/
def quote_plus (s : List Nat) : List Nat :=
  (s.flatMap utf8Encode).flatMap quoteByte

/-- services.py _normalize_cache_part; the input is None for Python
non-string arguments (the function returns "" for those). -/
def normalize_cache_part (value : Option (List Nat)) : List Nat :=
  match value with
  | Option.none => []
  | Option.some v =>
    let normalized := pyLower (pyStrip v)
    if normalized = [] then [] else quote_plus normalized

/-!
## Geocoding (services.py, _geocode_city)

The geopy geolocator is an oracle mapping (query, country_codes) to the
outcome of one geocode call: a location, no match (None), a timeout
exception (geopy GeocoderTimedOut), or another geopy error.
-/

/-- A geocoded location (geopy Location, the fields services.py reads). -/
structure Location where
  latitude : Rat
  longitude : Rat

/-- Outcome of a single call to the geolocator oracle. -/
inductive GeoResult where
  | found : Location → GeoResult
  | notFound : GeoResult
  | timeout : GeoResult
  | geoError : String → GeoResult

/-- Result of _geocode_city: a location, or an error dict with a status. -/
inductive GeocodeOutcome where
  | location : Location → GeocodeOutcome
  | failure : PyVal → Nat → GeocodeOutcome

/-- The (query, country_codes) attempt list built by _geocode_city. -/
def geocodeAttempts (city : String) (state country : Option String) :
    List (String × Option String) :=
  let parts := [city] ++ (if strTruthy state then [state.getD ""] else [])
    ++ (if strTruthy country then [country.getD ""] else [])
  [(String.intercalate ", " parts, country)]
    ++ (if strTruthy country && strTruthy state then
          [(city ++ ", " ++ country.getD "", country)] else [])
    ++ [(city, Option.none)]

/-- The attempt loop of _geocode_city: a timeout or a miss moves to the
next attempt, a non-timeout geopy error aborts with "Geocoding failed"
(502), exhaustion yields "City not found" (404). -/
def geocodeLoop (geo : String → Option String → GeoResult)
    (city : String) (state country : Option String) :
    List (String × Option String) → GeocodeOutcome
  | [] =>
    GeocodeOutcome.failure
      (PyVal.dict [("error", PyVal.str "City not found"),
        ("city", PyVal.str city), ("state", optStr state),
        ("country", optStr country)]) 404
  | (query, cc) :: rest =>
    match geo query cc with
    | GeoResult.found loc => GeocodeOutcome.location loc
    | GeoResult.notFound => geocodeLoop geo city state country rest
    | GeoResult.timeout => geocodeLoop geo city state country rest
    | GeoResult.geoError msg =>
      GeocodeOutcome.failure
        (PyVal.dict [("error", PyVal.str "Geocoding failed"),
          ("detail", PyVal.str msg)]) 502

/-- services.py _geocode_city. -/
def geocode_city (geo : String → Option String → GeoResult)
    (city : String) (state country : Option String) : GeocodeOutcome :=
  geocodeLoop geo city state country (geocodeAttempts city state country)

/-!
## Section selection (services.py, ALLOWED_SECTIONS / get_city_detail)
-/

/-- services.py ALLOWED_SECTIONS. -/
def ALLOWED_SECTIONS : List String :=
  ["base", "summary", "weather", "activities", "places"]

/-- The effective section set of get_city_detail: the full allowed set
when includes is None, otherwise the requested names filtered to the
allowed ones (membership model of the Python set comprehension). -/
def includeSet (includes : Option (List String)) : List String :=
  match includes with
  | Option.none => ALLOWED_SECTIONS
  | Option.some l => l.filter (fun s => decide (s ∈ ALLOWED_SECTIONS))

/-!
## Points of interest (services.py, _get_places_by_coordinates)

The embedding stops at the outbound HTTP request: the branch that reaches
requests.get is represented by the outboundCall constructor, which records
the radius (in meters) sent upstream.  The branches before it — cache hit,
disabled feature flag, missing API key — never reach the network.
-/

/-- Where _get_places_by_coordinates goes before (or instead of) the
outbound Foursquare request. -/
inductive PlacesResult where
  | ok : PyVal → PlacesResult
  | err : String → Nat → PlacesResult
  | outboundCall : Int → PlacesResult

/-- services.py _get_places_by_coordinates up to the outbound request.
cached is the cache lookup result; foursquareEnabled the FOURSQUARE_ENABLED
flag; apiKey the FOURSQUARE_API_KEY environment value (None when unset;
Python tests it for truthiness, so "" behaves like None).  The min-capping
of the radius never raises for integer radii, so the try/except fallback
branch around it is dead for these inputs. -/
def get_places_by_coordinates (cached : Option PyVal)
    (foursquareEnabled : Bool) (apiKey : Option String)
    (radius : Int) : PlacesResult :=
  match cached with
  | Option.some d => PlacesResult.ok d
  | Option.none =>
    if !foursquareEnabled then PlacesResult.ok (PyVal.list [])
    else if !strTruthy apiKey then
      PlacesResult.err "Missing Foursquare API key" 500
    else
      PlacesResult.outboundCall (min (radius * 1000) 100000)

/-!
## Activity sanitization (services.py, _sanitize_activity / _sanitize_activities)

bleach.clean with the module's allow-lists is an oracle on strings.
-/

/-- services.py _sanitize_html: clean strings, pass anything else through. -/
def sanitize_html (clean : String → String) (v : PyVal) : PyVal :=
  match v with
  | PyVal.str s => PyVal.str (clean s)
  | _ => v

/-- services.py _sanitize_activity: copy the dict and clean the
description and shortDescription values when those keys are present
(entry-wise map on the association list, which has unique keys). -/
def sanitize_activity (clean : String → String) (activity : PyVal) : PyVal :=
  match activity with
  | PyVal.dict entries =>
    PyVal.dict (entries.map (fun kv =>
      if kv.1 = "description" || kv.1 = "shortDescription" then
        (kv.1, sanitize_html clean kv.2)
      else kv))
  | _ => activity

/-- services.py _sanitize_activities. -/
def sanitize_activities (clean : String → String) (data : PyVal) : PyVal :=
  match data with
  | PyVal.list items =>
    PyVal.list ((items.filter (fun item => !item.isNone)).map
      (sanitize_activity clean))
  | PyVal.dict entries => sanitize_activity clean (PyVal.dict entries)
  | _ => data

/-!
## Weather alignment (services.py, _parse_iso / _nearest_index /
_pick_indexed and the payload assembly in _get_weather_by_coordinates)

datetime.fromisoformat (applied by _parse_iso after the Z→+00:00 rewrite)
is an oracle from strings to an epoch offset in seconds (or None when the
string does not parse).  Timestamp differences are taken in seconds, as
total_seconds() does.
-/

/-- services.py _parse_iso: None for non-strings and the empty string,
otherwise whatever the datetime library makes of the text. -/
def parse_iso (parse : String → Option Int) (ts : PyVal) : Option Int :=
  match ts with
  | PyVal.str s => if s = "" then Option.none else parse s
  | _ => Option.none

/-- The enumerate loop of _nearest_index: i is the index of the head of
the remaining series; bestIdx/bestDelta the running minimum (strict
improvement only, so the first index achieving the minimum is kept). -/
def nearestIndexAux (parse : String → Option Int) (cur : Int) :
    List PyVal → Nat → Option Nat → Option Int → Option Nat
  | [], _, bestIdx, _ => bestIdx
  | ts :: rest, i, bestIdx, bestDelta =>
    match parse_iso parse ts with
    | Option.none => nearestIndexAux parse cur rest (i + 1) bestIdx bestDelta
    | Option.some dt =>
      let delta := |dt - cur|
      match bestDelta with
      | Option.none =>
        nearestIndexAux parse cur rest (i + 1) (Option.some i) (Option.some delta)
      | Option.some bd =>
        if delta < bd then
          nearestIndexAux parse cur rest (i + 1) (Option.some i) (Option.some delta)
        else
          nearestIndexAux parse cur rest (i + 1) bestIdx bestDelta

/-- services.py _nearest_index. -/
def nearest_index (parse : String → Option Int) (current_ts series : PyVal) :
    Option Nat :=
  match parse_iso parse current_ts with
  | Option.none => Option.none
  | Option.some cur =>
    match series with
    | PyVal.list l =>
      if l.isEmpty then Option.none
      else nearestIndexAux parse cur l 0 Option.none Option.none
    | _ => Option.none

/-- services.py _pick_indexed. -/
def pick_indexed (series : PyVal) (idx : Option Nat) : PyVal :=
  match idx, series with
  | Option.some i, PyVal.list l =>
    if i < l.length then l.getD i PyVal.none else PyVal.none
  | _, _ => PyVal.none

/-- The current-conditions payload assembled by _get_weather_by_coordinates
from the parsed provider body (services.py lines 596–615). -/
def weather_current_payload (parse : String → Option Int) (data : PyVal) :
    PyVal :=
  let current := pyOr (data.get "current_weather") (PyVal.dict [])
  let hourly := pyOr (data.get "hourly") (PyVal.dict [])
  let hourly_time := pyOr (hourly.get "time") (PyVal.list [])
  let current_time := current.get "time"
  let idx := nearest_index parse current_time hourly_time
  PyVal.dict
    [("time", current_time),
     ("temperature", current.get "temperature"),
     ("apparent_temperature",
       pick_indexed (hourly.getD "apparent_temperature" (PyVal.list [])) idx),
     ("humidity",
       pick_indexed (hourly.getD "relativehumidity_2m" (PyVal.list [])) idx),
     ("precipitation",
       pick_indexed (hourly.getD "precipitation" (PyVal.list [])) idx),
     ("precipitation_probability",
       pick_indexed (hourly.getD "precipitation_probability" (PyVal.list [])) idx),
     ("windspeed", current.get "windspeed"),
     ("winddirection", current.get "winddirection"),
     ("cloudcover",
       pick_indexed (hourly.getD "cloudcover" (PyVal.list [])) idx),
     ("weathercode", current.get "weathercode")]

/-!
## Region resolver (services.py, _eligible_country / _pick_country /
resolve_city_for_region)

random.choice(seq) returns the element at a uniformly drawn valid index;
the draw oracles give that index for each successive call (reduced modulo
the sequence length, so the model is total — a real draw is always in
range).
-/

/-- services.py _eligible_country.  Python bools are ints, so a False
population is a numeric 0 and disqualifies; missing or non-numeric
population values leave the country eligible. -/
def eligible_country (country : PyVal) : Bool :=
  match country with
  | PyVal.dict entries =>
    (match PyVal.get (PyVal.dict entries) "population" with
     | PyVal.num p => if p ≤ 0 then false else true
     | PyVal.bool b => b
     | _ => true)
  | _ => false

/-- The bounded draw loop of _pick_country: k counts the draws made so
far, the second argument the draws remaining. -/
def pickCountryLoop (draw : Nat → Nat) (cs : List PyVal) :
    Nat → Nat → Option PyVal
  | _, 0 => Option.none
  | k, Nat.succ n =>
    let candidate := cs.getD (draw k % cs.length) PyVal.none
    if eligible_country candidate then Option.some candidate
    else pickCountryLoop draw cs (k + 1) n

/-- services.py _pick_country: up to len(countries) draws looking for an
eligible country, then one unconditional fallback draw. -/
def pick_country (draw : Nat → Nat) (countries : PyVal) : Option PyVal :=
  match countries with
  | PyVal.list cs =>
    if cs.isEmpty then Option.none
    else
      match pickCountryLoop draw cs 0 cs.length with
      | Option.some c => Option.some c
      | Option.none =>
        Option.some (cs.getD (draw cs.length % cs.length) PyVal.none)
  | _ => Option.none

/-- A service call result: a data payload or an error dict with status
(the {"data": ...} / {"error": ..., "error_status": ...} convention). -/
inductive ServiceResult where
  | data : PyVal → ServiceResult
  | failure : PyVal → Nat → ServiceResult

/-- services.py _can_geocode around its geolocator call: a falsy city is
rejected before the network; otherwise the oracle answers for the built
query (geopy errors make the real function return False, which the oracle
absorbs). -/
def can_geocode (oracle : PyVal → PyVal → PyVal → Bool)
    (city state country_iso2 : PyVal) : Bool :=
  if !city.truthy then false else oracle city state country_iso2

/-- The random-state loop of resolve_city_for_region (lines 254–270): per
iteration draw a state, skip it without a usable iso2 code, fetch its
cities, draw one and accept it when it is a dict whose name geocodes.
Returns (city_name, state_name, state_iso2) on success. -/
def regionStateLoop (drawState drawCity : Nat → Nat)
    (getCities : PyVal → PyVal) (geoOracle : PyVal → PyVal → PyVal → Bool)
    (states : List PyVal) (iso2_country_code : PyVal) :
    Nat → Nat → Option (PyVal × PyVal × PyVal)
  | _, 0 => Option.none
  | k, Nat.succ n =>
    let state_choice := states.getD (drawState k % states.length) PyVal.none
    let state_iso2_candidate := state_choice.get "iso2"
    let state_name_candidate := state_choice.get "name"
    if !state_iso2_candidate.truthy then
      regionStateLoop drawState drawCity getCities geoOracle states
        iso2_country_code (k + 1) n
    else
      match getCities state_iso2_candidate with
      | PyVal.list cities =>
        if cities.isEmpty then
          regionStateLoop drawState drawCity getCities geoOracle states
            iso2_country_code (k + 1) n
        else
          match cities.getD (drawCity k % cities.length) PyVal.none with
          | PyVal.dict centries =>
            let city_name := PyVal.get (PyVal.dict centries) "name"
            if can_geocode geoOracle city_name state_name_candidate
                iso2_country_code then
              Option.some (city_name, state_name_candidate, state_iso2_candidate)
            else
              regionStateLoop drawState drawCity getCities geoOracle states
                iso2_country_code (k + 1) n
          | _ =>
            regionStateLoop drawState drawCity getCities geoOracle states
              iso2_country_code (k + 1) n
      | _ =>
        regionStateLoop drawState drawCity getCities geoOracle states
          iso2_country_code (k + 1) n

/-- services.py resolve_city_for_region.  countriesResult is the value of
_get_countries_by_region(region); statesResult the value of
_get_states_by_country for the picked country; getCities maps a state's
iso2 value to _get_cities_by_state's result. -/
def resolve_city_for_region (countriesResult : ServiceResult)
    (drawCountry drawState drawCity : Nat → Nat)
    (statesResult : PyVal) (getCities : PyVal → PyVal)
    (geoOracle : PyVal → PyVal → PyVal → Bool)
    (region : String) (wants_capital : Bool) : ServiceResult :=
  match countriesResult with
  | ServiceResult.failure e s => ServiceResult.failure e s
  | ServiceResult.data countries =>
    match pick_country drawCountry countries with
    | Option.none =>
      ServiceResult.failure
        (PyVal.dict [("error", PyVal.str "No country data found for region"),
          ("region", PyVal.str region)]) 404
    | Option.some country =>
      let iso2_country_code := country.get "cca2"
      let iso3_country_code := country.get "cca3"
      let capital_list := pyOr (country.get "capital") (PyVal.list [])
      let capital_city :=
        match capital_list with
        | PyVal.list (c :: _) => c
        | _ => PyVal.none
      if wants_capital then
        ServiceResult.data (PyVal.dict
          [("region", PyVal.str region),
           ("city", capital_city),
           ("iso2_country_code", iso2_country_code),
           ("iso3_country_code", iso3_country_code)])
      else
        match statesResult with
        | PyVal.list sts =>
          if sts.isEmpty then
            ServiceResult.failure
              (PyVal.dict [("error", PyVal.str "No states found for country"),
                ("country", iso2_country_code)]) 404
          else
            let loopResult := regionStateLoop drawState drawCity getCities
              geoOracle sts iso2_country_code 0 (min sts.length 5)
            let picked :=
              match loopResult with
              | Option.some csi => csi
              | Option.none => (PyVal.none, PyVal.none, PyVal.none)
            let random_city :=
              if picked.1.truthy then picked.1 else capital_city
            if !random_city.truthy then
              ServiceResult.failure
                (PyVal.dict [("error", PyVal.str "No city found for region"),
                  ("region", PyVal.str region),
                  ("country", iso2_country_code)]) 404
            else
              ServiceResult.data (PyVal.dict
                [("region", PyVal.str region),
                 ("city", random_city),
                 ("iso2_country_code", iso2_country_code),
                 ("iso3_country_code", iso3_country_code),
                 ("state_name", picked.2.1),
                 ("iso2_state_code", picked.2.2)])
        | _ =>
          ServiceResult.failure
            (PyVal.dict [("error", PyVal.str "No states found for country"),
              ("country", iso2_country_code)]) 404

/-!
## City detail aggregation (services.py, get_city_detail)

Oracles: geo is the geolocator (used on a base-cache miss); clean is
bleach.clean; baseCache the cached base record (None on a miss);
countryDetails the value of _get_country_details(country); and four
ServiceResult oracles give the outcome of the per-section provider calls
(_get_city_summary, _get_weather_by_coordinates,
_get_activities_by_coordinates, _get_places_by_coordinates), each already
of the {"data"}/{"error","error_status"} shape.  The cache.set calls have
no observable effect inside one invocation and are dropped.
-/

/-- Result of get_city_detail: a terminal error dict with status, or the
success shape {"data": payload} — with an "errors" key exactly when the
error list is non-empty. -/
inductive CityDetailResult where
  | failure : PyVal → Nat → CityDetailResult
  | success : PyVal → List (String × PyVal) → CityDetailResult

/-- The base record assembled on a cache miss (services.py lines 746–755). -/
def buildBaseData (city : String) (state country : Option String)
    (countryDetails : PyVal) (loc : Location) : PyVal :=
  PyVal.dict
    [("city", PyVal.str city),
     ("coordinates", PyVal.dict
       [("latitude", PyVal.num loc.latitude),
        ("longitude", PyVal.num loc.longitude)]),
     ("state", optStr state),
     ("country", optStr country),
     ("country_details", countryDetails)]

/-- Outcome of the base-record step of get_city_detail. -/
inductive BaseStep where
  | ok : PyVal → BaseStep
  | failed : PyVal → Nat → BaseStep

/-- The base-record step: use the cached record, or geocode and build one;
a geocoding error is returned as the terminal result. -/
def base_step (geo : String → Option String → GeoResult)
    (baseCache : Option PyVal) (countryDetails : PyVal)
    (city : String) (state country : Option String) : BaseStep :=
  match baseCache with
  | Option.some b => BaseStep.ok b
  | Option.none =>
    match geocode_city geo city state country with
    | GeocodeOutcome.failure e s => BaseStep.failed e s
    | GeocodeOutcome.location loc =>
      BaseStep.ok (buildBaseData city state country countryDetails loc)

/-- The entries of a dict value ({**base_data} spreads a dict). -/
def entriesOf (v : PyVal) : List (String × PyVal) :=
  match v with
  | PyVal.dict entries => entries
  | _ => []

/-- One per-section block of get_city_detail: when the section is
requested, a provider error is appended to the error map and a provider
success is stored in response_data under the section name (after the
section's payload transformation — the identity except for activities,
which are sanitized). -/
def sectionStep (sections : List String) (name : String) (r : ServiceResult)
    (payload : PyVal → PyVal)
    (acc : List (String × PyVal) × List (String × PyVal)) :
    List (String × PyVal) × List (String × PyVal) :=
  if name ∈ sections then
    match r with
    | ServiceResult.failure e _ => (acc.1, acc.2 ++ [(name, e)])
    | ServiceResult.data d => (dictSet acc.1 name (payload d), acc.2)
  else acc

/-- services.py get_city_detail. -/
def get_city_detail (geo : String → Option String → GeoResult)
    (clean : String → String) (baseCache : Option PyVal)
    (countryDetails : PyVal)
    (summaryR weatherR activitiesR placesR : ServiceResult)
    (city : String) (state country : Option String)
    (includes : Option (List String)) : CityDetailResult :=
  let sections := includeSet includes
  match base_step geo baseCache countryDetails city state country with
  | BaseStep.failed e s => CityDetailResult.failure e s
  | BaseStep.ok base_data =>
    let coordinates := pyOr (base_data.get "coordinates") (PyVal.dict [])
    let latitude := coordinates.get "latitude"
    let longitude := coordinates.get "longitude"
    if latitude.isNone || longitude.isNone then
      CityDetailResult.failure
        (PyVal.dict [("error", PyVal.str "Missing coordinates for city"),
          ("city", PyVal.str city)]) 500
    else
      let start : List (String × PyVal) × List (String × PyVal) :=
        ((if "base" ∈ sections then entriesOf base_data else []), [])
      let acc1 := sectionStep sections "summary" summaryR id start
      let acc2 := sectionStep sections "weather" weatherR id acc1
      let acc3 := sectionStep sections "activities" activitiesR
        (sanitize_activities clean) acc2
      let acc4 := sectionStep sections "places" placesR id acc3
      CityDetailResult.success (PyVal.dict acc4.1) acc4.2

/-- The claim's acceptance criterion, in its own words: the drawn
country's population value is a number greater than 0. -/
def claimPopulationPositive (c : PyVal) : Bool :=
  match PyVal.get c "population" with
  | PyVal.num p => decide (0 < p)
  | _ => false

/-- Geolocator stub for the C3 witness: the bare-city query succeeds,
every other query times out. -/
def geoStubThirdAttempt : String → Option String → GeoResult :=
  fun query _ =>
    if query = "X" then GeoResult.found (Location.mk 40 (-74))
    else GeoResult.timeout

/-- First-minimum reference: index and delta of the earliest parseable
element with the least absolute difference to cur, offset by k. -/
def bestOf (parse : String → Option Int) (cur : Int) :
    List PyVal → Nat → Option (Nat × Int)
  | [], _ => Option.none
  | ts :: rest, i =>
    match parse_iso parse ts with
    | Option.none => bestOf parse cur rest (i + 1)
    | Option.some v =>
      match bestOf parse cur rest (i + 1) with
      | Option.none => Option.some (i, |v - cur|)
      | Option.some jd =>
        if |v - cur| ≤ jd.2 then Option.some (i, |v - cur|) else Option.some jd

/-- Timestamp-parse stub for the C5 scenario: T0 parses to 0 s, T1 to
3600 s, everything else fails to parse. -/
def parseStubT01 : String → Option Int :=
  fun s =>
    if s = "T0" then Option.some 0
    else if s = "T1" then Option.some 3600
    else Option.none

/-- Weather-provider body for the C5 scenario: current time T1, hourly
times [T0, T1], hourly humidity [10, 20] and precipitation [0, 2]. -/
def weatherFixture : PyVal :=
  PyVal.dict
    [("current_weather", PyVal.dict
       [("time", PyVal.str "T1"), ("temperature", PyVal.num 50)]),
     ("hourly", PyVal.dict
       [("time", PyVal.list [PyVal.str "T0", PyVal.str "T1"]),
        ("relativehumidity_2m", PyVal.list [PyVal.num 10, PyVal.num 20]),
        ("precipitation", PyVal.list [PyVal.num 0, PyVal.num 2])])]

/-- The four per-section blocks of get_city_detail in source order
(summary, weather, activities, places) over an initial response_data. -/
def sectionFold (sections : List String) (clean : String → String)
    (summaryR weatherR activitiesR placesR : ServiceResult)
    (baseEntries : List (String × PyVal)) :
    List (String × PyVal) × List (String × PyVal) :=
  sectionStep sections "places" placesR id
    (sectionStep sections "activities" activitiesR (sanitize_activities clean)
      (sectionStep sections "weather" weatherR id
        (sectionStep sections "summary" summaryR id (baseEntries, []))))

/-!
## Helper lemmas
-/

/-- Safe bytes are ASCII. -/
theorem safeByte_lt_128 (c : Nat) (h : isSafeByte c = true) : c < 128 := by
  simp only [isSafeByte, Bool.or_eq_true, Bool.and_eq_true, decide_eq_true_eq] at h
  omega

/-- UTF-8 leaves safe bytes alone. -/
theorem utf8Encode_safe (c : Nat) (h : isSafeByte c = true) :
    utf8Encode c = [c] := by
  unfold utf8Encode
  rw [if_pos (safeByte_lt_128 c h)]

/-- quote_plus leaves safe bytes alone. -/
theorem quoteByte_safe (c : Nat) (h : isSafeByte c = true) :
    quoteByte c = [c] := by
  unfold quoteByte
  rw [if_pos h]

/-- quote_plus is the identity on all-safe strings. -/
theorem quote_plus_safe (l : List Nat) (h : ∀ c ∈ l, isSafeByte c = true) :
    quote_plus l = l := by
  induction l with
  | nil => rfl
  | cons c t ih =>
    have hc : isSafeByte c = true := h c (List.mem_cons_self c t)
    have ht : ∀ x ∈ t, isSafeByte x = true := fun x hx => h x (List.mem_cons_of_mem c hx)
    simp only [quote_plus, List.flatMap_cons] at *
    rw [utf8Encode_safe c hc]
    simp only [List.singleton_append, List.flatMap_cons, quoteByte_safe c hc,
      List.singleton_append, List.cons.injEq, true_and]
    exact ih ht

/-- Safe bytes are not whitespace. -/
theorem safeByte_not_space (c : Nat) (h : isSafeByte c = true) :
    isAsciiSpace c = false := by
  simp only [isSafeByte, Bool.or_eq_true, Bool.and_eq_true, decide_eq_true_eq] at h
  simp only [isAsciiSpace, Bool.or_eq_false_iff, decide_eq_false_iff_not]
  omega

/-- dropWhile is the identity when no element satisfies the predicate. -/
theorem dropWhile_all_false {α : Type} (p : α → Bool) (l : List α)
    (h : ∀ x ∈ l, p x = false) : l.dropWhile p = l := by
  cases l with
  | nil => rfl
  | cons a t =>
    simp only [List.dropWhile_cons, h a (List.mem_cons_self a t)]
    simp

/-- str.strip() is the identity on whitespace-free strings. -/
theorem pyStrip_all_nonspace (l : List Nat)
    (h : ∀ c ∈ l, isAsciiSpace c = false) : pyStrip l = l := by
  unfold pyStrip
  rw [dropWhile_all_false _ l h]
  rw [dropWhile_all_false _ l.reverse (fun c hc => h c (List.mem_reverse.mp hc))]
  exact List.reverse_reverse l

/-- The ASCII case map is idempotent. -/
theorem lowerChar_idem (c : Nat) : lowerChar (lowerChar c) = lowerChar c := by
  unfold lowerChar
  split
  · split
    · omega
    · rfl
  · rfl

/-- str.lower() is the identity on its own image. -/
theorem pyLower_idem (l : List Nat) : pyLower (pyLower l) = pyLower l := by
  unfold pyLower
  rw [List.map_map]
  exact List.map_congr_left (fun c _ => lowerChar_idem c)

/-!
## C2: cache-key normalization idempotence
-/

/-- C2 (counterexample): normalization is NOT idempotent for every string.
For the input "a b" (code points [97, 32, 98]) the first pass yields "a+b"
and the second pass percent-encodes the introduced plus sign, yielding
"a%2Bb". -/
theorem c2_normalize_not_idempotent :
    normalize_cache_part (Option.some (normalize_cache_part
      (Option.some [97, 32, 98]))) ≠
      normalize_cache_part (Option.some [97, 32, 98]) := by decide

/-- C2 (amended): normalization is idempotent on every string whose
trimmed, lowercased form consists only of characters that quote_plus
leaves unchanged (ASCII letters, digits, underscore, dot, hyphen, tilde);
once the first pass introduces a `+` or a percent escape, a second pass
re-encodes them. -/
theorem c2_normalize_idempotent_on_safe (s : List Nat)
    (h : ∀ c ∈ pyLower (pyStrip s), isSafeByte c = true) :
    normalize_cache_part (Option.some (normalize_cache_part (Option.some s)))
      = normalize_cache_part (Option.some s) := by
  by_cases h0 : pyLower (pyStrip s) = []
  · simp [normalize_cache_part, h0]
    intro hcon
    exact absurd rfl hcon
  · have hq : quote_plus (pyLower (pyStrip s)) = pyLower (pyStrip s) :=
      quote_plus_safe _ h
    have inner : normalize_cache_part (Option.some s) = pyLower (pyStrip s) := by
      simp [normalize_cache_part, h0, hq]
    rw [inner]
    have hstrip : pyStrip (pyLower (pyStrip s)) = pyLower (pyStrip s) :=
      pyStrip_all_nonspace _ (fun c hc => safeByte_not_space c (h c hc))
    simp [normalize_cache_part, hstrip, pyLower_idem, h0, hq]

/-- C2 witness: the amended idempotence at the concrete safe input "ab". -/
theorem c2_normalize_idempotent_on_safe_witness :
    normalize_cache_part (Option.some (normalize_cache_part
      (Option.some [97, 98]))) = normalize_cache_part (Option.some [97, 98]) :=
  c2_normalize_idempotent_on_safe [97, 98] (by decide)

/-!
## C4: effective section set
-/

/-- C4 (counterexample): "wikipedia" is NOT in the allowed set.  With
includes = None the effective set does not contain "wikipedia", and an
explicit ["wikipedia"] request resolves to the empty effective set. -/
theorem c4_wikipedia_not_a_section :
    decide ("wikipedia" ∈ includeSet Option.none) = false ∧
      includeSet (Option.some ["wikipedia"]) = [] ∧
      decide ("wikipedia" ∈ ALLOWED_SECTIONS) = false := by decide

/-- C4 (amended): the full allowed set is {base, summary, weather,
activities, places} (no "wikipedia").  includes = None defaults to that
set; an explicit list is intersected with it, unrecognized names being
silently dropped. -/
theorem c4_include_set_resolution (s : String) (l : List String) :
    ALLOWED_SECTIONS = ["base", "summary", "weather", "activities", "places"] ∧
      includeSet Option.none = ALLOWED_SECTIONS ∧
      (s ∈ includeSet (Option.some l) ↔ s ∈ l ∧ s ∈ ALLOWED_SECTIONS) := by
  refine ⟨rfl, rfl, ?_⟩
  simp [includeSet, List.mem_filter]

/-- C4 witness: resolution at a concrete request mixing one valid and one
unknown name. -/
theorem c4_include_set_resolution_witness :
    ALLOWED_SECTIONS = ["base", "summary", "weather", "activities", "places"] ∧
      includeSet Option.none = ALLOWED_SECTIONS ∧
      ("weather" ∈ includeSet (Option.some ["weather", "wikipedia"]) ↔
        "weather" ∈ ["weather", "wikipedia"] ∧ "weather" ∈ ALLOWED_SECTIONS) :=
  c4_include_set_resolution "weather" ["weather", "wikipedia"]

/-!
## C6 and C7: points-of-interest adapter
-/

/-- C6: on a cache miss, a disabled points-of-interest flag yields an
empty success list whatever the API key is; an enabled flag with a falsy
API key (unset or empty) yields the "Missing Foursquare API key" error
with status 500; neither branch reaches the outbound request. -/
theorem c6_places_flag_and_key (r : Int) (apiKey : Option String) :
    (get_places_by_coordinates Option.none false apiKey r =
        PlacesResult.ok (PyVal.list [])) ∧
      (∀ m, get_places_by_coordinates Option.none false apiKey r ≠
        PlacesResult.outboundCall m) ∧
      (strTruthy apiKey = false →
        get_places_by_coordinates Option.none true apiKey r =
          PlacesResult.err "Missing Foursquare API key" 500) ∧
      (strTruthy apiKey = false → ∀ m,
        get_places_by_coordinates Option.none true apiKey r ≠
          PlacesResult.outboundCall m) := by
  refine ⟨rfl, fun m h => by simp [get_places_by_coordinates] at h, ?_, ?_⟩
  · intro h
    simp [get_places_by_coordinates, h]
  · intro h m hc
    simp [get_places_by_coordinates, h] at hc

/-- C6 witness: the disabled-flag and missing-key outcomes at radius 10
with no API key configured. -/
theorem c6_places_flag_and_key_witness :
    (get_places_by_coordinates Option.none false Option.none 10 =
        PlacesResult.ok (PyVal.list [])) ∧
      (get_places_by_coordinates Option.none true Option.none 10 =
        PlacesResult.err "Missing Foursquare API key" 500) :=
  ⟨(c6_places_flag_and_key 10 Option.none).1,
    (c6_places_flag_and_key 10 Option.none).2.2.1 rfl⟩

/-- C7: on a cache miss with the feature enabled and a key present, the
radius sent upstream (in meters) is min(r·1000, 100000); in particular a
200 km radius is capped at exactly 100000 m. -/
theorem c7_places_radius_capped (r : Int) (key : String) (h : key ≠ "") :
    get_places_by_coordinates Option.none true (Option.some key) r =
        PlacesResult.outboundCall (min (r * 1000) 100000) ∧
      get_places_by_coordinates Option.none true (Option.some key) 200 =
        PlacesResult.outboundCall 100000 := by
  constructor
  · simp [get_places_by_coordinates, strTruthy, h]
  · simp [get_places_by_coordinates, strTruthy, h]

/-- C7 witness: the cap at the concrete radii 7 km and 200 km. -/
theorem c7_places_radius_capped_witness :
    get_places_by_coordinates Option.none true (Option.some "k") 7 =
        PlacesResult.outboundCall (min (7 * 1000) 100000) ∧
      get_places_by_coordinates Option.none true (Option.some "k") 200 =
        PlacesResult.outboundCall 100000 :=
  c7_places_radius_capped 7 "k" (by decide)

/-!
## C10: sanitization frame property
-/

/-- C10: sanitizing an activity record touches at most its description and
shortDescription fields — the key sequence is unchanged, every entry under
another key is passed through identically, and non-dict inputs come back
untouched (whatever bleach.clean does on strings). -/
theorem c10_sanitize_activity_frame (clean : String → String)
    (entries : List (String × PyVal)) (v : PyVal) :
    (sanitize_activity clean (PyVal.dict entries) =
        PyVal.dict (entries.map (fun kv =>
          if kv.1 = "description" || kv.1 = "shortDescription" then
            (kv.1, sanitize_html clean kv.2)
          else kv))) ∧
      ((entriesOf (sanitize_activity clean (PyVal.dict entries))).map
          Prod.fst = entries.map Prod.fst) ∧
      (∀ kv ∈ entries, kv.1 ≠ "description" → kv.1 ≠ "shortDescription" →
        kv ∈ entriesOf (sanitize_activity clean (PyVal.dict entries))) ∧
      ((∀ es, v ≠ PyVal.dict es) → sanitize_activity clean v = v) := by
  refine ⟨rfl, ?_, ?_, ?_⟩
  · simp only [sanitize_activity, entriesOf, List.map_map]
    refine List.map_congr_left ?_
    intro kv _
    simp only [Function.comp]
    split <;> rfl
  · intro kv hkv h1 h2
    simp only [sanitize_activity, entriesOf]
    refine List.mem_map.mpr ⟨kv, hkv, ?_⟩
    simp [h1, h2]
  · intro hnd
    cases v with
    | dict es => exact absurd rfl (hnd es)
    | none => rfl
    | bool b => rfl
    | num q => rfl
    | str s => rfl
    | list l => rfl

/-- C10 witness: the frame property at a concrete record with a name, a
description and a rating, under a concrete cleaner. -/
theorem c10_sanitize_activity_frame_witness :
    (sanitize_activity (fun _ => "clean")
        (PyVal.dict [("name", PyVal.str "tour"),
          ("description", PyVal.str "<script>x</script>"),
          ("rating", PyVal.num 4)]) =
      PyVal.dict ([("name", PyVal.str "tour"),
          ("description", PyVal.str "<script>x</script>"),
          ("rating", PyVal.num 4)].map (fun kv =>
        if kv.1 = "description" || kv.1 = "shortDescription" then
          (kv.1, sanitize_html (fun _ => "clean") kv.2)
        else kv))) ∧
      (("rating", PyVal.num 4) ∈ entriesOf (sanitize_activity
        (fun _ => "clean") (PyVal.dict [("name", PyVal.str "tour"),
          ("description", PyVal.str "<script>x</script>"),
          ("rating", PyVal.num 4)]))) ∧
      sanitize_activity (fun _ => "clean") (PyVal.str "plain") =
        PyVal.str "plain" := by
  refine ⟨(c10_sanitize_activity_frame (fun _ => "clean") _ (PyVal.str "plain")).1,
    (c10_sanitize_activity_frame (fun _ => "clean") _ (PyVal.str "plain")).2.2.1
      ("rating", PyVal.num 4) (by simp) (by decide) (by decide),
    (c10_sanitize_activity_frame (fun _ => "clean") [] (PyVal.str "plain")).2.2.2
      (fun es h => by simp at h)⟩

/-!
## C8: country eligibility and the pick loop
-/


/-- C8 (counterexample): a drawn country with NO population field is
accepted by the loop even though its population is not greater than 0 —
acceptance is not equivalent to population > 0. -/
theorem c8_accepts_missing_population :
    eligible_country (PyVal.dict [("name", PyVal.str "Test")]) = true ∧
      claimPopulationPositive (PyVal.dict [("name", PyVal.str "Test")]) = false ∧
      pickCountryLoop (fun _ => 0) [PyVal.dict [("name", PyVal.str "Test")]] 0 1 =
        Option.some (PyVal.dict [("name", PyVal.str "Test")]) :=
  ⟨rfl, rfl, rfl⟩

/-- C8 (amended): a drawn country is accepted iff it is a dict whose
population value, when numeric (Python bools count as numbers), is
positive — entries with a missing or non-numeric population are accepted
too; a drawn candidate is accepted by the loop exactly when that predicate
holds, and the fallback draw is taken only when none of the
len(countries) bounded draws was accepted. -/
theorem c8_pick_country_amended (draw : Nat → Nat) (cs : List PyVal)
    (c : PyVal) (k n : Nat) :
    (eligible_country c = true ↔
        ((∃ es, c = PyVal.dict es) ∧
          (∀ p : Rat, PyVal.get c "population" = PyVal.num p → 0 < p) ∧
          (∀ b : Bool, PyVal.get c "population" = PyVal.bool b → b = true))) ∧
      (pickCountryLoop draw cs k (n + 1) =
        (if eligible_country (cs.getD (draw k % cs.length) PyVal.none) then
          Option.some (cs.getD (draw k % cs.length) PyVal.none)
        else pickCountryLoop draw cs (k + 1) n)) ∧
      (pickCountryLoop draw cs k n = Option.none ↔
        ∀ j < n, eligible_country
          (cs.getD (draw (k + j) % cs.length) PyVal.none) = false) ∧
      (cs.isEmpty = false →
        pick_country draw (PyVal.list cs) =
          (match pickCountryLoop draw cs 0 cs.length with
           | Option.some picked => Option.some picked
           | Option.none =>
             Option.some (cs.getD (draw cs.length % cs.length) PyVal.none))) := by
  refine ⟨?_, rfl, ?_, ?_⟩
  · cases c with
    | dict es =>
      rcases hp : PyVal.get (PyVal.dict es) "population" with _ | b | p | s | l | d <;>
        simp [eligible_country, hp, not_le]
    | none => simp [eligible_country, PyVal.get]
    | bool b => simp [eligible_country, PyVal.get]
    | num q => simp [eligible_country, PyVal.get]
    | str s => simp [eligible_country, PyVal.get]
    | list l => simp [eligible_country, PyVal.get]
  · induction n generalizing k with
    | zero => simp [pickCountryLoop]
    | succ n ih =>
      by_cases he : eligible_country (cs.getD (draw k % cs.length) PyVal.none) = true
      · have hstep : pickCountryLoop draw cs k (n + 1) =
            Option.some (cs.getD (draw k % cs.length) PyVal.none) := by
          have hu : pickCountryLoop draw cs k (n + 1) =
              if eligible_country (cs.getD (draw k % cs.length) PyVal.none) then
                Option.some (cs.getD (draw k % cs.length) PyVal.none)
              else pickCountryLoop draw cs (k + 1) n := rfl
          rw [hu, he]
          simp
        rw [hstep]
        constructor
        · intro h
          exact absurd h (by simp)
        · intro hall
          have h0 := hall 0 (Nat.succ_pos n)
          rw [Nat.add_zero] at h0
          rw [he] at h0
          exact absurd h0 (by simp)
      · have he' : eligible_country (cs.getD (draw k % cs.length) PyVal.none) = false :=
          Bool.eq_false_iff.mpr he
        have hstep : pickCountryLoop draw cs k (n + 1) =
            pickCountryLoop draw cs (k + 1) n := by
          have hu : pickCountryLoop draw cs k (n + 1) =
              if eligible_country (cs.getD (draw k % cs.length) PyVal.none) then
                Option.some (cs.getD (draw k % cs.length) PyVal.none)
              else pickCountryLoop draw cs (k + 1) n := rfl
          rw [hu, he']
          simp
        rw [hstep, ih (k + 1)]
        constructor
        · intro h j hj
          cases j with
          | zero =>
            rw [Nat.add_zero]
            exact he'
          | succ j =>
            have := h j (by omega)
            rw [show k + (j + 1) = k + 1 + j by omega]
            exact this
        · intro h j hj
          have := h (j + 1) (by omega)
          rw [show k + 1 + j = k + (j + 1) by omega]
          exact this
  · intro h
    simp [pick_country, h]

/-- C8 witness: a positive-population country is accepted; a
zero-population country exhausts a one-element draw sequence. -/
theorem c8_pick_country_amended_witness :
    eligible_country (PyVal.dict [("population", PyVal.num 5)]) = true ∧
      pickCountryLoop (fun _ => 0)
        [PyVal.dict [("population", PyVal.num 0)]] 0 1 = Option.none := by
  constructor
  · refine (c8_pick_country_amended (fun _ => 0) []
      (PyVal.dict [("population", PyVal.num 5)]) 0 0).1.mpr
      ⟨⟨_, rfl⟩, ?_, ?_⟩
    · intro p hp
      rw [show PyVal.get (PyVal.dict [("population", PyVal.num 5)])
        "population" = PyVal.num 5 from rfl] at hp
      cases hp
      norm_num
    · intro b hb
      rw [show PyVal.get (PyVal.dict [("population", PyVal.num 5)])
        "population" = PyVal.num 5 from rfl] at hb
      exact absurd hb (by simp)
  · refine (c8_pick_country_amended (fun _ => 0)
      [PyVal.dict [("population", PyVal.num 0)]] PyVal.none 0 1).2.2.1.mpr ?_
    intro j hj
    have hj0 : j = 0 := Nat.lt_one_iff.mp hj
    subst hj0
    rfl

/-!
## C9: capital request with no capital
-/

/-- C9: when resolve_city_for_region is asked for a capital and the
picked country's capital list is absent or empty, it returns a success
payload whose city field is None — never an error. -/
theorem c9_capital_absent_is_success (countries : PyVal)
    (drawCountry drawState drawCity : Nat → Nat) (statesResult : PyVal)
    (getCities : PyVal → PyVal) (geoOracle : PyVal → PyVal → PyVal → Bool)
    (region : String) (country : PyVal)
    (hpick : pick_country drawCountry countries = Option.some country)
    (hcap : PyVal.get country "capital" = PyVal.none ∨
      PyVal.get country "capital" = PyVal.list []) :
    resolve_city_for_region (ServiceResult.data countries) drawCountry
        drawState drawCity statesResult getCities geoOracle region true =
      ServiceResult.data (PyVal.dict
        [("region", PyVal.str region),
         ("city", PyVal.none),
         ("iso2_country_code", PyVal.get country "cca2"),
         ("iso3_country_code", PyVal.get country "cca3")]) ∧
      (∀ e s, resolve_city_for_region (ServiceResult.data countries)
        drawCountry drawState drawCity statesResult getCities geoOracle
        region true ≠ ServiceResult.failure e s) := by
  have hres : resolve_city_for_region (ServiceResult.data countries)
      drawCountry drawState drawCity statesResult getCities geoOracle
      region true = ServiceResult.data (PyVal.dict
        [("region", PyVal.str region),
         ("city", PyVal.none),
         ("iso2_country_code", PyVal.get country "cca2"),
         ("iso3_country_code", PyVal.get country "cca3")]) := by
    rcases hcap with h | h <;>
      simp [resolve_city_for_region, hpick, h, pyOr, PyVal.truthy]
  refine ⟨hres, ?_⟩
  intro e s hc
  rw [hres] at hc
  exact ServiceResult.noConfusion hc

/-- C9 witness: the concrete country {cca2: FR, cca3: FRA} with no
capital field, drawn deterministically from a one-element region list. -/
theorem c9_capital_absent_is_success_witness :
    resolve_city_for_region
        (ServiceResult.data (PyVal.list
          [PyVal.dict [("cca2", PyVal.str "FR"), ("cca3", PyVal.str "FRA")]]))
        (fun _ => 0) (fun _ => 0) (fun _ => 0) PyVal.none (fun _ => PyVal.none)
        (fun _ _ _ => false) "europe" true =
      ServiceResult.data (PyVal.dict
        [("region", PyVal.str "europe"),
         ("city", PyVal.none),
         ("iso2_country_code",
           PyVal.get (PyVal.dict [("cca2", PyVal.str "FR"),
             ("cca3", PyVal.str "FRA")]) "cca2"),
         ("iso3_country_code",
           PyVal.get (PyVal.dict [("cca2", PyVal.str "FR"),
             ("cca3", PyVal.str "FRA")]) "cca3")]) :=
  (c9_capital_absent_is_success
    (PyVal.list [PyVal.dict [("cca2", PyVal.str "FR"), ("cca3", PyVal.str "FRA")]])
    (fun _ => 0) (fun _ => 0) (fun _ => 0) PyVal.none (fun _ => PyVal.none)
    (fun _ _ _ => false) "europe"
    (PyVal.dict [("cca2", PyVal.str "FR"), ("cca3", PyVal.str "FRA")])
    rfl (Or.inl rfl)).1

/-!
## C3: geocoding attempt strategy
-/


/-- C3: with both state and country supplied, the attempts are exactly
"city, state, country" (biased by the country code), then "city, country"
(still biased), then the bare city; the loop stops at the first located
attempt, treats a timeout or a miss as "try the next attempt", aborts with
"Geocoding failed" (502) on a non-timeout geocoder error, and returns
"City not found" (404) when every attempt ends without a location. -/
theorem c3_geocode_strategy (geo : String → Option String → GeoResult)
    (city s c : String) (hs : s ≠ "") (hc : c ≠ "") :
    (geocodeAttempts city (Option.some s) (Option.some c) =
        [(String.intercalate ", " [city, s, c], Option.some c),
         (city ++ ", " ++ c, Option.some c),
         (city, Option.none)]) ∧
      (∀ st co q cc rest loc, geo q cc = GeoResult.found loc →
        geocodeLoop geo city st co ((q, cc) :: rest) =
          GeocodeOutcome.location loc) ∧
      (∀ st co q cc rest, geo q cc = GeoResult.timeout →
        geocodeLoop geo city st co ((q, cc) :: rest) =
          geocodeLoop geo city st co rest) ∧
      (∀ st co q cc rest, geo q cc = GeoResult.notFound →
        geocodeLoop geo city st co ((q, cc) :: rest) =
          geocodeLoop geo city st co rest) ∧
      (∀ st co q cc rest msg, geo q cc = GeoResult.geoError msg →
        geocodeLoop geo city st co ((q, cc) :: rest) =
          GeocodeOutcome.failure
            (PyVal.dict [("error", PyVal.str "Geocoding failed"),
              ("detail", PyVal.str msg)]) 502) ∧
      (∀ st co attempts,
        (∀ a ∈ attempts, geo a.1 a.2 = GeoResult.timeout ∨
          geo a.1 a.2 = GeoResult.notFound) →
        geocodeLoop geo city st co attempts =
          GeocodeOutcome.failure
            (PyVal.dict [("error", PyVal.str "City not found"),
              ("city", PyVal.str city), ("state", optStr st),
              ("country", optStr co)]) 404) ∧
      (∀ loc,
        geo (String.intercalate ", " [city, s, c]) (Option.some c) =
          GeoResult.timeout →
        geo (city ++ ", " ++ c) (Option.some c) = GeoResult.timeout →
        geo city Option.none = GeoResult.found loc →
        geocode_city geo city (Option.some s) (Option.some c) =
          GeocodeOutcome.location loc) := by
  have hatt : geocodeAttempts city (Option.some s) (Option.some c) =
      [(String.intercalate ", " [city, s, c], Option.some c),
       (city ++ ", " ++ c, Option.some c),
       (city, Option.none)] := by
    simp [geocodeAttempts, strTruthy, hs, hc]
  refine ⟨hatt, ?_, ?_, ?_, ?_, ?_, ?_⟩
  · intro st co q cc rest loc h
    simp [geocodeLoop, h]
  · intro st co q cc rest h
    simp [geocodeLoop, h]
  · intro st co q cc rest h
    simp [geocodeLoop, h]
  · intro st co q cc rest msg h
    simp [geocodeLoop, h]
  · intro st co attempts
    induction attempts with
    | nil => intro _; rfl
    | cons a rest ih =>
      intro hall
      rcases hall a (List.mem_cons_self a rest) with h | h
      · rcases a with ⟨q, cc⟩
        rw [show geocodeLoop geo city st co ((q, cc) :: rest) =
          geocodeLoop geo city st co rest from by simp [geocodeLoop, h]]
        exact ih (fun x hx => hall x (List.mem_cons_of_mem _ hx))
      · rcases a with ⟨q, cc⟩
        rw [show geocodeLoop geo city st co ((q, cc) :: rest) =
          geocodeLoop geo city st co rest from by simp [geocodeLoop, h]]
        exact ih (fun x hx => hall x (List.mem_cons_of_mem _ hx))
  · intro loc h1 h2 h3
    unfold geocode_city
    rw [hatt]
    simp [geocodeLoop, h1, h2, h3]

/-- C3 witness: with a stub that times out on the first two attempts and
locates the bare city, geocoding "X" in state "Y", country "Z" follows the
three-attempt order and succeeds on the third attempt. -/
theorem c3_geocode_strategy_witness :
    (geocodeAttempts "X" (Option.some "Y") (Option.some "Z") =
        [(String.intercalate ", " ["X", "Y", "Z"], Option.some "Z"),
         ("X" ++ ", " ++ "Z", Option.some "Z"),
         ("X", Option.none)]) ∧
      geocode_city geoStubThirdAttempt "X" (Option.some "Y") (Option.some "Z") =
        GeocodeOutcome.location (Location.mk 40 (-74)) :=
  ⟨(c3_geocode_strategy geoStubThirdAttempt "X" "Y" "Z" (by decide) (by decide)).1,
   (c3_geocode_strategy geoStubThirdAttempt "X" "Y" "Z" (by decide)
     (by decide)).2.2.2.2.2.2 (Location.mk 40 (-74)) rfl rfl rfl⟩

/-!
## C5: nearest-hour alignment

bestOf is the first-minimum reference function the enumerate loop of
_nearest_index is proved against: it returns the (absolute index, delta)
of the earliest parseable timestamp with minimal |timestamp − current|.
-/


/-- The enumerate loop with a running best agrees with bestOf, the
running best winning ties (it is the earlier index). -/
theorem nearestIndexAux_acc (parse : String → Option Int) (cur : Int) :
    ∀ (l : List PyVal) (k b : Nat) (d : Int),
      nearestIndexAux parse cur l k (Option.some b) (Option.some d) =
        (match bestOf parse cur l k with
         | Option.none => Option.some b
         | Option.some jd =>
           if jd.2 < d then Option.some jd.1 else Option.some b) := by
  intro l
  induction l with
  | nil => intro k b d; rfl
  | cons ts rest ih =>
    intro k b d
    rcases hp : parse_iso parse ts with _ | v
    · rw [show nearestIndexAux parse cur (ts :: rest) k (Option.some b)
          (Option.some d) = nearestIndexAux parse cur rest (k + 1)
          (Option.some b) (Option.some d) from by simp [nearestIndexAux, hp]]
      rw [ih]
      rw [show bestOf parse cur (ts :: rest) k = bestOf parse cur rest (k + 1)
        from by simp [bestOf, hp]]
    · rw [show nearestIndexAux parse cur (ts :: rest) k (Option.some b)
          (Option.some d) =
          (if |v - cur| < d then
            nearestIndexAux parse cur rest (k + 1) (Option.some k)
              (Option.some |v - cur|)
          else
            nearestIndexAux parse cur rest (k + 1) (Option.some b)
              (Option.some d)) from by simp [nearestIndexAux, hp]]
      rw [show bestOf parse cur (ts :: rest) k =
          (match bestOf parse cur rest (k + 1) with
           | Option.none => Option.some (k, |v - cur|)
           | Option.some jd =>
             if |v - cur| ≤ jd.2 then Option.some (k, |v - cur|)
             else Option.some jd) from by simp [bestOf, hp]]
      by_cases hlt : |v - cur| < d
      · rw [if_pos hlt, ih]
        rcases hb : bestOf parse cur rest (k + 1) with _ | ⟨j, e⟩
        · simp [hlt]
        · by_cases h2 : |v - cur| ≤ e
          · have h3 : ¬ e < |v - cur| := not_lt.mpr h2
            simp [h2, h3, hlt]
          · have h2' : e < |v - cur| := not_le.mp h2
            have h3 : e < d := lt_trans h2' hlt
            simp [h2, h2', h3]
      · rw [if_neg hlt, ih]
        rcases hb : bestOf parse cur rest (k + 1) with _ | ⟨j, e⟩
        · simp [hlt]
        · by_cases h2 : |v - cur| ≤ e
          · have h3 : ¬ e < d := by
              rw [not_lt] at hlt ⊢
              exact le_trans hlt h2
            simp [h2, hlt, h3]
          · simp [h2]

/-- The enumerate loop started empty computes the index of the
first minimum. -/
theorem nearestIndexAux_bestOf (parse : String → Option Int) (cur : Int) :
    ∀ (l : List PyVal) (k : Nat),
      nearestIndexAux parse cur l k Option.none Option.none =
        Option.map Prod.fst (bestOf parse cur l k) := by
  intro l
  induction l with
  | nil => intro k; rfl
  | cons ts rest ih =>
    intro k
    rcases hp : parse_iso parse ts with _ | v
    · rw [show nearestIndexAux parse cur (ts :: rest) k Option.none
          Option.none = nearestIndexAux parse cur rest (k + 1) Option.none
          Option.none from by simp [nearestIndexAux, hp]]
      rw [ih]
      rw [show bestOf parse cur (ts :: rest) k = bestOf parse cur rest (k + 1)
        from by simp [bestOf, hp]]
    · rw [show nearestIndexAux parse cur (ts :: rest) k Option.none
          Option.none = nearestIndexAux parse cur rest (k + 1)
          (Option.some k) (Option.some |v - cur|) from by
        simp [nearestIndexAux, hp]]
      rw [nearestIndexAux_acc]
      rw [show bestOf parse cur (ts :: rest) k =
          (match bestOf parse cur rest (k + 1) with
           | Option.none => Option.some (k, |v - cur|)
           | Option.some jd =>
             if |v - cur| ≤ jd.2 then Option.some (k, |v - cur|)
             else Option.some jd) from by simp [bestOf, hp]]
      rcases hb : bestOf parse cur rest (k + 1) with _ | ⟨j, e⟩
      · simp
      · by_cases h2 : |v - cur| ≤ e
        · have h3 : ¬ e < |v - cur| := not_lt.mpr h2
          simp [h2, h3]
        · have h2' : e < |v - cur| := not_le.mp h2
          simp [h2, h2']

/-- bestOf finds nothing exactly when nothing parses. -/
theorem bestOf_none_iff (parse : String → Option Int) (cur : Int) :
    ∀ (l : List PyVal) (k : Nat),
      bestOf parse cur l k = Option.none ↔
        ∀ ts ∈ l, parse_iso parse ts = Option.none := by
  intro l
  induction l with
  | nil => intro k; simp [bestOf]
  | cons ts rest ih =>
    intro k
    rcases hp : parse_iso parse ts with _ | v
    · rw [show bestOf parse cur (ts :: rest) k = bestOf parse cur rest (k + 1)
        from by simp [bestOf, hp]]
      rw [ih]
      constructor
      · intro h x hx
        rcases List.mem_cons.mp hx with rfl | hx'
        · exact hp
        · exact h x hx'
      · intro h x hx
        exact h x (List.mem_cons_of_mem ts hx)
    · rw [show bestOf parse cur (ts :: rest) k =
          (match bestOf parse cur rest (k + 1) with
           | Option.none => Option.some (k, |v - cur|)
           | Option.some jd =>
             if |v - cur| ≤ jd.2 then Option.some (k, |v - cur|)
             else Option.some jd) from by simp [bestOf, hp]]
      constructor
      · intro h
        exfalso
        rcases hb : bestOf parse cur rest (k + 1) with _ | jd <;> rw [hb] at h
        · exact Option.noConfusion h
        · by_cases hle : |v - cur| ≤ jd.2 <;> simp [hle] at h
      · intro h
        exact absurd (h ts (List.mem_cons_self ts rest)) (by simp [hp])

/-- An in-range getD hits a member of the list. -/
theorem getD_mem_of_lt {α : Type} (l : List α) (d : α) (n : Nat)
    (h : n < l.length) : l.getD n d ∈ l := by
  induction l generalizing n with
  | nil => simp at h
  | cons a t ih =>
    cases n with
    | zero => simp
    | succ n' =>
      rw [List.getD_cons_succ]
      exact List.mem_cons_of_mem a (ih n' (by simp at h; omega))

/-- bestOf returns the position of a parseable element whose delta is
minimal, and among equal deltas the earliest position. -/
theorem bestOf_spec (parse : String → Option Int) (cur : Int) :
    ∀ (l : List PyVal) (k j : Nat) (d : Int),
      bestOf parse cur l k = Option.some (j, d) →
        k ≤ j ∧ j - k < l.length ∧
        (∃ v, parse_iso parse (l.getD (j - k) PyVal.none) = Option.some v ∧
          d = |v - cur|) ∧
        (∀ m, m < l.length → ∀ w,
          parse_iso parse (l.getD m PyVal.none) = Option.some w →
          d ≤ |w - cur| ∧ (|w - cur| = d → j ≤ k + m)) := by
  intro l
  induction l with
  | nil =>
    intro k j d h
    exact absurd h (by simp [bestOf])
  | cons ts rest ih =>
    intro k j d h
    rcases hp : parse_iso parse ts with _ | v
    · rw [show bestOf parse cur (ts :: rest) k = bestOf parse cur rest (k + 1)
        from by simp [bestOf, hp]] at h
      obtain ⟨hk, hlen, ⟨v, hv, hd⟩, hmin⟩ := ih (k + 1) j d h
      refine ⟨by omega, by simp; omega, ?_, ?_⟩
      · refine ⟨v, ?_, hd⟩
        rw [show j - k = (j - (k + 1)) + 1 from by omega, List.getD_cons_succ]
        exact hv
      · intro m hm w hw
        cases m with
        | zero =>
          rw [List.getD_cons_zero, hp] at hw
          exact absurd hw (by simp)
        | succ m' =>
          rw [List.getD_cons_succ] at hw
          have hm' : m' < rest.length := by simp at hm; omega
          obtain ⟨h1, h2⟩ := hmin m' hm' w hw
          exact ⟨h1, fun he => by have := h2 he; omega⟩
    · rcases hb : bestOf parse cur rest (k + 1) with _ | ⟨j', e⟩
      · rw [show bestOf parse cur (ts :: rest) k =
            Option.some (k, |v - cur|) from by simp [bestOf, hp, hb]] at h
        simp only [Option.some.injEq, Prod.mk.injEq] at h
        obtain ⟨hj, hd⟩ := h
        have hrest : ∀ x ∈ rest, parse_iso parse x = Option.none :=
          (bestOf_none_iff parse cur rest (k + 1)).mp hb
        refine ⟨by omega, by simp; omega, ?_, ?_⟩
        · refine ⟨v, ?_, hd.symm⟩
          rw [show j - k = 0 from by omega, List.getD_cons_zero]
          exact hp
        · intro m hm w hw
          cases m with
          | zero =>
            rw [List.getD_cons_zero, hp] at hw
            have hwv : v = w := Option.some.inj hw
            subst hwv
            exact ⟨le_of_eq hd.symm, fun _ => by omega⟩
          | succ m' =>
            rw [List.getD_cons_succ] at hw
            have hm' : m' < rest.length := by simp at hm; omega
            have := hrest (rest.getD m' PyVal.none) (getD_mem_of_lt rest PyVal.none m' hm')
            rw [this] at hw
            exact absurd hw (by simp)
      · rw [show bestOf parse cur (ts :: rest) k =
            (if |v - cur| ≤ e then Option.some (k, |v - cur|)
             else Option.some (j', e)) from by simp [bestOf, hp, hb]] at h
        obtain ⟨hk', hlen', ⟨v', hv', hd'⟩, hmin'⟩ := ih (k + 1) j' e hb
        by_cases hle : |v - cur| ≤ e
        · rw [if_pos hle] at h
          simp only [Option.some.injEq, Prod.mk.injEq] at h
          obtain ⟨hj, hd⟩ := h
          refine ⟨by omega, by simp; omega, ?_, ?_⟩
          · refine ⟨v, ?_, hd.symm⟩
            rw [show j - k = 0 from by omega, List.getD_cons_zero]
            exact hp
          · intro m hm w hw
            cases m with
            | zero =>
              rw [List.getD_cons_zero, hp] at hw
              have hwv : v = w := Option.some.inj hw
              subst hwv
              exact ⟨le_of_eq hd.symm, fun _ => by omega⟩
            | succ m' =>
              rw [List.getD_cons_succ] at hw
              have hm' : m' < rest.length := by simp at hm; omega
              obtain ⟨h1, h2⟩ := hmin' m' hm' w hw
              refine ⟨?_, fun _ => by omega⟩
              calc d = |v - cur| := hd.symm
                _ ≤ e := hle
                _ ≤ |w - cur| := h1
        · rw [if_neg hle] at h
          simp only [Option.some.injEq, Prod.mk.injEq] at h
          obtain ⟨hj, hd⟩ := h
          subst hj
          subst hd
          refine ⟨by omega, by simp; omega, ?_, ?_⟩
          · refine ⟨v', ?_, hd'⟩
            rw [show j' - k = (j' - (k + 1)) + 1 from by omega,
              List.getD_cons_succ]
            exact hv'
          · intro m hm w hw
            cases m with
            | zero =>
              rw [List.getD_cons_zero, hp] at hw
              have hwv : v = w := Option.some.inj hw
              subst hwv
              have hlt : e < |v - cur| := not_le.mp hle
              exact ⟨le_of_lt hlt, fun he => absurd he (by omega)⟩
            | succ m' =>
              rw [List.getD_cons_succ] at hw
              have hm' : m' < rest.length := by simp at hm; omega
              obtain ⟨h1, h2⟩ := hmin' m' hm' w hw
              exact ⟨h1, fun he => by have := h2 he; omega⟩


/-- C5: the alignment picks the index with minimal |hourly − current|,
ties to the lowest index; if the current timestamp or every hourly
timestamp fails to parse the index is None and the backfilled payload
fields are None instead of an error; and with hourly [T0, T1] and current
T1 the humidity/precipitation values are the index-1 ones. -/
theorem c5_weather_alignment (parse : String → Option Int)
    (ct : PyVal) (l : List PyVal) (i : Nat) :
    (nearest_index parse ct (PyVal.list l) = Option.some i →
      ∃ cur, parse_iso parse ct = Option.some cur ∧
        i < l.length ∧
        (∃ v, parse_iso parse (l.getD i PyVal.none) = Option.some v ∧
          ∀ m, m < l.length → ∀ w,
            parse_iso parse (l.getD m PyVal.none) = Option.some w →
            |v - cur| ≤ |w - cur| ∧ (|w - cur| = |v - cur| → i ≤ m))) ∧
      ((∀ ts ∈ l, parse_iso parse ts = Option.none) →
        nearest_index parse ct (PyVal.list l) = Option.none) ∧
      (parse_iso parse ct = Option.none →
        nearest_index parse ct (PyVal.list l) = Option.none) ∧
      (∀ data, nearest_index parse
          ((pyOr (data.get "current_weather") (PyVal.dict [])).get "time")
          (pyOr ((pyOr (data.get "hourly") (PyVal.dict [])).get "time")
            (PyVal.list [])) = Option.none →
        PyVal.get (weather_current_payload parse data) "humidity" =
            PyVal.none ∧
          PyVal.get (weather_current_payload parse data) "precipitation" =
            PyVal.none) ∧
      (nearest_index parseStubT01 (PyVal.str "T1")
          (PyVal.list [PyVal.str "T0", PyVal.str "T1"]) = Option.some 1 ∧
        PyVal.get (weather_current_payload parseStubT01 weatherFixture)
          "humidity" = PyVal.num 20 ∧
        PyVal.get (weather_current_payload parseStubT01 weatherFixture)
          "precipitation" = PyVal.num 2) := by
  refine ⟨?_, ?_, ?_, ?_, ?_⟩
  · intro h
    rcases hc : parse_iso parse ct with _ | cur
    · rw [show nearest_index parse ct (PyVal.list l) = Option.none from by
        simp [nearest_index, hc]] at h
      exact absurd h (by simp)
    · refine ⟨cur, rfl, ?_⟩
      rcases he : l.isEmpty with _ | _
      · rw [show nearest_index parse ct (PyVal.list l) =
            nearestIndexAux parse cur l 0 Option.none Option.none from by
          simp [nearest_index, hc, he]] at h
        rw [nearestIndexAux_bestOf] at h
        rcases hbo : bestOf parse cur l 0 with _ | ⟨j, d⟩
        · rw [hbo] at h
          exact absurd h (by simp)
        · rw [hbo] at h
          have hji : j = i := by simpa using h
          subst hji
          obtain ⟨_, hlen, ⟨v, hv, hd⟩, hmin⟩ := bestOf_spec parse cur l 0 j d hbo
          rw [Nat.sub_zero] at hlen hv
          refine ⟨by omega, v, hv, ?_⟩
          intro m hm w hw
          obtain ⟨h1, h2⟩ := hmin m hm w hw
          rw [← hd]
          exact ⟨h1, fun hwe => by have := h2 hwe; omega⟩
      · rw [show nearest_index parse ct (PyVal.list l) = Option.none from by
          simp [nearest_index, hc, he]] at h
        exact absurd h (by simp)
  · intro hall
    rcases hc : parse_iso parse ct with _ | cur
    · simp [nearest_index, hc]
    · rcases he : l.isEmpty with _ | _
      · have hbo : bestOf parse cur l 0 = Option.none :=
          (bestOf_none_iff parse cur l 0).mpr hall
        simp [nearest_index, hc, he, nearestIndexAux_bestOf, hbo]
      · simp [nearest_index, hc, he]
  · intro hc
    simp [nearest_index, hc]
  · intro data hidx
    constructor
    · rw [show PyVal.get (weather_current_payload parse data) "humidity" =
          pick_indexed ((pyOr (data.get "hourly") (PyVal.dict [])).getD
            "relativehumidity_2m" (PyVal.list []))
            (nearest_index parse
              ((pyOr (data.get "current_weather") (PyVal.dict [])).get "time")
              (pyOr ((pyOr (data.get "hourly") (PyVal.dict [])).get "time")
                (PyVal.list []))) from rfl]
      rw [hidx]
      rfl
    · rw [show PyVal.get (weather_current_payload parse data) "precipitation" =
          pick_indexed ((pyOr (data.get "hourly") (PyVal.dict [])).getD
            "precipitation" (PyVal.list []))
            (nearest_index parse
              ((pyOr (data.get "current_weather") (PyVal.dict [])).get "time")
              (pyOr ((pyOr (data.get "hourly") (PyVal.dict [])).get "time")
                (PyVal.list []))) from rfl]
      rw [hidx]
      rfl
  · exact ⟨rfl, rfl, rfl⟩

/-- C5 witness: the argmin property instantiated at the concrete
[T0, T1] fixture with the current instant equal to T1. -/
theorem c5_weather_alignment_witness :
    (∃ cur, parse_iso parseStubT01 (PyVal.str "T1") = Option.some cur ∧
      1 < [PyVal.str "T0", PyVal.str "T1"].length ∧
      (∃ v, parse_iso parseStubT01
          ([PyVal.str "T0", PyVal.str "T1"].getD 1 PyVal.none) =
          Option.some v ∧
        ∀ m, m < [PyVal.str "T0", PyVal.str "T1"].length → ∀ w,
          parse_iso parseStubT01
            ([PyVal.str "T0", PyVal.str "T1"].getD m PyVal.none) =
            Option.some w →
          |v - cur| ≤ |w - cur| ∧ (|w - cur| = |v - cur| → 1 ≤ m))) ∧
      nearest_index parseStubT01 (PyVal.str "T1")
        (PyVal.list [PyVal.str "T0", PyVal.str "T1"]) = Option.some 1 :=
  ⟨(c5_weather_alignment parseStubT01 (PyVal.str "T1")
      [PyVal.str "T0", PyVal.str "T1"] 1).1 rfl,
   (c5_weather_alignment parseStubT01 (PyVal.str "T1")
      [PyVal.str "T0", PyVal.str "T1"] 1).2.2.2.2.1⟩

/-!
## C1: aggregation error policy
-/

/-- Reading back the key just written. -/
theorem get_dictSet_self (entries : List (String × PyVal)) (k : String)
    (v : PyVal) : PyVal.get (PyVal.dict (dictSet entries k v)) k = v := by
  induction entries with
  | nil => simp [dictSet, PyVal.get]
  | cons kv rest ih =>
    by_cases hk : kv.1 = k
    · simp [dictSet, hk, PyVal.get]
    · simp only [dictSet, hk, if_false]
      rw [show PyVal.get (PyVal.dict (kv :: dictSet rest k v)) k =
          PyVal.get (PyVal.dict (dictSet rest k v)) k from by
        simp [PyVal.get, List.find?, hk]]
      exact ih

/-- Writing one key leaves every other key unchanged. -/
theorem get_dictSet_ne (entries : List (String × PyVal)) (k' k : String)
    (v : PyVal) (h : k' ≠ k) :
    PyVal.get (PyVal.dict (dictSet entries k' v)) k =
      PyVal.get (PyVal.dict entries) k := by
  induction entries with
  | nil => simp [dictSet, PyVal.get, List.find?, h]
  | cons kv rest ih =>
    by_cases hk : kv.1 = k'
    · by_cases hkk : kv.1 = k
      · exact absurd (hk ▸ hkk) h
      · simp [dictSet, hk, PyVal.get, List.find?, h, hkk]
    · simp only [dictSet, hk, if_false]
      by_cases hkk : kv.1 = k
      · simp [PyVal.get, List.find?, hkk]
      · rw [show PyVal.get (PyVal.dict (kv :: dictSet rest k' v)) k =
            PyVal.get (PyVal.dict (dictSet rest k' v)) k from by
          simp [PyVal.get, List.find?, hkk]]
        rw [show PyVal.get (PyVal.dict (kv :: rest)) k =
            PyVal.get (PyVal.dict rest) k from by
          simp [PyVal.get, List.find?, hkk]]
        exact ih

/-- A sectionStep for another section does not disturb a stored value. -/
theorem sectionStep_get_ne (sections : List String) (name other : String)
    (r : ServiceResult) (payload : PyVal → PyVal)
    (acc : List (String × PyVal) × List (String × PyVal))
    (h : other ≠ name) :
    PyVal.get (PyVal.dict (sectionStep sections other r payload acc).1) name =
      PyVal.get (PyVal.dict acc.1) name := by
  unfold sectionStep
  by_cases hm : other ∈ sections
  · simp only [hm, if_true]
    cases r with
    | failure e s => rfl
    | data d => exact get_dictSet_ne acc.1 other name (payload d) h
  · simp [hm]

/-- A sectionStep never removes a recorded error. -/
theorem sectionStep_errors_mono (sections : List String) (other : String)
    (r : ServiceResult) (payload : PyVal → PyVal)
    (acc : List (String × PyVal) × List (String × PyVal))
    (x : String × PyVal) (h : x ∈ acc.2) :
    x ∈ (sectionStep sections other r payload acc).2 := by
  unfold sectionStep
  by_cases hm : other ∈ sections
  · simp only [hm, if_true]
    cases r with
    | failure e s => exact List.mem_append_left _ h
    | data d => exact h
  · simp [hm, h]

/-- A requested failing section records its error. -/
theorem sectionStep_records_error (sections : List String) (name : String)
    (e : PyVal) (s : Nat) (payload : PyVal → PyVal)
    (acc : List (String × PyVal) × List (String × PyVal))
    (h : name ∈ sections) :
    (name, e) ∈ (sectionStep sections name (ServiceResult.failure e s)
      payload acc).2 := by
  unfold sectionStep
  simp [h]

/-- A requested successful section stores its payload under its name. -/
theorem sectionStep_stores_payload (sections : List String) (name : String)
    (d : PyVal) (payload : PyVal → PyVal)
    (acc : List (String × PyVal) × List (String × PyVal))
    (h : name ∈ sections) :
    PyVal.get (PyVal.dict (sectionStep sections name (ServiceResult.data d)
      payload acc).1) name = payload d := by
  unfold sectionStep
  simp only [h, if_true]
  exact get_dictSet_self acc.1 name (payload d)


/-- C1: the request is terminal only for the base prerequisite — a
geocoding failure on a base-cache miss (returned verbatim) or a base
record without coordinates (500) — and otherwise returns a success in
which every requested failing section is recorded in the error map under
its name and every requested successful section's payload is present in
the data under its name. -/
theorem c1_error_containment (geo : String → Option String → GeoResult)
    (clean : String → String) (baseCache : Option PyVal)
    (countryDetails : PyVal)
    (summaryR weatherR activitiesR placesR : ServiceResult)
    (city : String) (state country : Option String)
    (includes : Option (List String)) :
    (∀ e s, baseCache = Option.none →
      geocode_city geo city state country = GeocodeOutcome.failure e s →
      get_city_detail geo clean baseCache countryDetails summaryR weatherR
        activitiesR placesR city state country includes =
        CityDetailResult.failure e s) ∧
      (∀ bd, base_step geo baseCache countryDetails city state country =
          BaseStep.ok bd →
        (((pyOr (bd.get "coordinates") (PyVal.dict [])).get
            "latitude").isNone = true ∨
          ((pyOr (bd.get "coordinates") (PyVal.dict [])).get
            "longitude").isNone = true) →
        get_city_detail geo clean baseCache countryDetails summaryR weatherR
          activitiesR placesR city state country includes =
          CityDetailResult.failure
            (PyVal.dict [("error", PyVal.str "Missing coordinates for city"),
              ("city", PyVal.str city)]) 500) ∧
      (∀ bd, base_step geo baseCache countryDetails city state country =
          BaseStep.ok bd →
        ((pyOr (bd.get "coordinates") (PyVal.dict [])).get
          "latitude").isNone = false →
        ((pyOr (bd.get "coordinates") (PyVal.dict [])).get
          "longitude").isNone = false →
        ∃ rd errs,
          get_city_detail geo clean baseCache countryDetails summaryR
            weatherR activitiesR placesR city state country includes =
            CityDetailResult.success (PyVal.dict rd) errs ∧
          (∀ e s, "summary" ∈ includeSet includes →
            summaryR = ServiceResult.failure e s → ("summary", e) ∈ errs) ∧
          (∀ d, "summary" ∈ includeSet includes →
            summaryR = ServiceResult.data d →
            PyVal.get (PyVal.dict rd) "summary" = d) ∧
          (∀ e s, "weather" ∈ includeSet includes →
            weatherR = ServiceResult.failure e s → ("weather", e) ∈ errs) ∧
          (∀ d, "weather" ∈ includeSet includes →
            weatherR = ServiceResult.data d →
            PyVal.get (PyVal.dict rd) "weather" = d) ∧
          (∀ e s, "activities" ∈ includeSet includes →
            activitiesR = ServiceResult.failure e s →
            ("activities", e) ∈ errs) ∧
          (∀ d, "activities" ∈ includeSet includes →
            activitiesR = ServiceResult.data d →
            PyVal.get (PyVal.dict rd) "activities" =
              sanitize_activities clean d) ∧
          (∀ e s, "places" ∈ includeSet includes →
            placesR = ServiceResult.failure e s → ("places", e) ∈ errs) ∧
          (∀ d, "places" ∈ includeSet includes →
            placesR = ServiceResult.data d →
            PyVal.get (PyVal.dict rd) "places" = d)) := by
  refine ⟨?_, ?_, ?_⟩
  · intro e s hb hg
    simp [get_city_detail, base_step, hb, hg]
  · intro bd hb hcoord
    rcases hcoord with h | h <;> simp [get_city_detail, hb, h]
  · intro bd hb hlat hlon
    have hres : get_city_detail geo clean baseCache countryDetails summaryR
        weatherR activitiesR placesR city state country includes =
        CityDetailResult.success
          (PyVal.dict (sectionFold (includeSet includes) clean summaryR
            weatherR activitiesR placesR
            (if "base" ∈ includeSet includes then entriesOf bd else [])).1)
          (sectionFold (includeSet includes) clean summaryR weatherR
            activitiesR placesR
            (if "base" ∈ includeSet includes then entriesOf bd else [])).2 := by
      simp [get_city_detail, sectionFold, hb, hlat, hlon]
    refine ⟨_, _, hres, ?_, ?_, ?_, ?_, ?_, ?_, ?_, ?_⟩
    · intro e s hreq hr
      rw [hr]
      refine sectionStep_errors_mono _ _ _ _ _ _
        (sectionStep_errors_mono _ _ _ _ _ _
          (sectionStep_errors_mono _ _ _ _ _ _
            (sectionStep_records_error _ _ e s _ _ hreq)))
    · intro d hreq hr
      rw [hr]
      unfold sectionFold
      rw [sectionStep_get_ne _ _ _ _ _ _ (by decide)]
      rw [sectionStep_get_ne _ _ _ _ _ _ (by decide)]
      rw [sectionStep_get_ne _ _ _ _ _ _ (by decide)]
      exact sectionStep_stores_payload _ _ d _ _ hreq
    · intro e s hreq hr
      rw [hr]
      refine sectionStep_errors_mono _ _ _ _ _ _
        (sectionStep_errors_mono _ _ _ _ _ _
          (sectionStep_records_error _ _ e s _ _ hreq))
    · intro d hreq hr
      rw [hr]
      unfold sectionFold
      rw [sectionStep_get_ne _ _ _ _ _ _ (by decide)]
      rw [sectionStep_get_ne _ _ _ _ _ _ (by decide)]
      exact sectionStep_stores_payload _ _ d _ _ hreq
    · intro e s hreq hr
      rw [hr]
      refine sectionStep_errors_mono _ _ _ _ _ _
        (sectionStep_records_error _ _ e s _ _ hreq)
    · intro d hreq hr
      rw [hr]
      unfold sectionFold
      rw [sectionStep_get_ne _ _ _ _ _ _ (by decide)]
      exact sectionStep_stores_payload _ _ d _ _ hreq
    · intro e s hreq hr
      rw [hr]
      exact sectionStep_records_error _ _ e s _ _ hreq
    · intro d hreq hr
      rw [hr]
      unfold sectionFold
      exact sectionStep_stores_payload _ _ d _ _ hreq

/-- C1 witness: a geocoder error on a cache miss is returned verbatim as
the terminal result, and a cached base record without coordinates yields
the terminal 500, at concrete inputs. -/
theorem c1_error_containment_witness :
    (get_city_detail (fun _ _ => GeoResult.geoError "boom") id Option.none
        PyVal.none (ServiceResult.data PyVal.none)
        (ServiceResult.data PyVal.none) (ServiceResult.data PyVal.none)
        (ServiceResult.data PyVal.none) "X" Option.none Option.none
        Option.none =
      CityDetailResult.failure
        (PyVal.dict [("error", PyVal.str "Geocoding failed"),
          ("detail", PyVal.str "boom")]) 502) ∧
      (get_city_detail (fun _ _ => GeoResult.geoError "boom") id
        (Option.some (PyVal.dict [("city", PyVal.str "X")])) PyVal.none
        (ServiceResult.data PyVal.none) (ServiceResult.data PyVal.none)
        (ServiceResult.data PyVal.none) (ServiceResult.data PyVal.none)
        "X" Option.none Option.none Option.none =
      CityDetailResult.failure
        (PyVal.dict [("error", PyVal.str "Missing coordinates for city"),
          ("city", PyVal.str "X")]) 500) :=
  ⟨(c1_error_containment (fun _ _ => GeoResult.geoError "boom") id Option.none
      PyVal.none (ServiceResult.data PyVal.none)
      (ServiceResult.data PyVal.none) (ServiceResult.data PyVal.none)
      (ServiceResult.data PyVal.none) "X" Option.none Option.none
      Option.none).1
      (PyVal.dict [("error", PyVal.str "Geocoding failed"),
        ("detail", PyVal.str "boom")]) 502 rfl rfl,
   (c1_error_containment (fun _ _ => GeoResult.geoError "boom") id
      (Option.some (PyVal.dict [("city", PyVal.str "X")])) PyVal.none
      (ServiceResult.data PyVal.none) (ServiceResult.data PyVal.none)
      (ServiceResult.data PyVal.none) (ServiceResult.data PyVal.none)
      "X" Option.none Option.none Option.none).2.1
      (PyVal.dict [("city", PyVal.str "X")]) rfl (Or.inl rfl)⟩
